import Mathlib

/-!
Shallow embedding of `synapse/events/presence_router.py` (class `PresenceRouter`).

The router holds an optional custom policy module and answers two questions:
where a batch of presence updates should be routed
(`get_rooms_and_users_for_states`, the spec's `routeUpdates`) and which users a
local user is interested in (`get_interested_users`, the spec's
`getInterestedUsers`).

Python's duck typing is modelled by a `PolicyModule` structure whose four
attribute slots are optional: `hasattr(obj, name)` becomes `Option.isSome`, and
calling a missing attribute yields an `AttributeError` value.  Exceptions are
modelled with `Except`: a policy method returns `Except PyErr α`, and the
router's methods return `Except PyErr α` as well, so that propagation of policy
failures is observable.  The async layer is collapsed: awaiting a call is the
call itself.
-/

/-- One user presence state update.  The router treats these values as opaque
(it never inspects or mutates their fields), so a minimal record suffices. -/
structure UserPresenceState where
  user_id : String
  state : String
deriving DecidableEq, Repr

/-- Python exception values that can cross the router boundary: the
`AttributeError` raised when a missing attribute is accessed, and arbitrary
errors raised inside policy code. -/
inductive PyErr where
  | attributeError (name : String)
  | other (msg : String)
deriving DecidableEq, Repr

/-- Result type of `get_interested_users`: either a finite set of user IDs, or
the distinguished `ALL` sentinel meaning presence of every known user. -/
inductive InterestResult where
  | all : InterestResult
  | users (s : Finset String) : InterestResult
deriving DecidableEq

/-- Return type of `get_rooms_and_users_for_states`: the 2-tuple
`(room_ids_to_states, users_to_states)`, each a dict from entity name to a list
of presence updates, modelled as an association list. -/
def RoomsAndUsers : Type :=
  List (String × List UserPresenceState) × List (String × List UserPresenceState)

instance : DecidableEq RoomsAndUsers := by
  unfold RoomsAndUsers
  infer_instance

/-- A custom presence router module (the policy).  Each field models one
duck-typed attribute the router's code mentions; `none` means the attribute is
absent, so `hasattr` is `Option.isSome` and invoking an absent attribute is an
`AttributeError`.  Note that the router's code names four distinct attributes:
it checks `get_interested_users` and `get_users_for_states` with `hasattr`, but
the methods it actually invokes are `get_interested_in` and
`get_rooms_and_users_for_states`. -/
structure PolicyModule where
  get_interested_users : Option (String → Except PyErr InterestResult)
  get_interested_in : Option (String → Except PyErr InterestResult)
  get_users_for_states :
    Option (List UserPresenceState → Except PyErr (List (String × List UserPresenceState)))
  get_rooms_and_users_for_states : Option (List UserPresenceState → Except PyErr RoomsAndUsers)

/-- Opaque configuration blob handed to the policy class at construction
(`hs.config.presence_router_config`). -/
structure ModuleConfig where
  settings : List (String × String)

/-- Opaque handle to server module APIs (`hs.get_module_api()`). -/
structure ModuleApi where
  server_name : String

/-- The slice of the homeserver configuration the router's `__init__` reads:
whether a custom presence router module is configured (truthiness of
`presence_router_module`), the module class, and its configuration. -/
structure HomeServerConfig where
  presence_router_module : Bool
  presence_router_module_class : ModuleConfig → ModuleApi → PolicyModule
  presence_router_config : ModuleConfig

/-- The slice of the `HomeServer` object the router's `__init__` touches. -/
structure HomeServer where
  config : HomeServerConfig
  module_api : ModuleApi

/-- Embedding of `hs.get_module_api()`. -/
def HomeServer.get_module_api (hs : HomeServer) : ModuleApi :=
  hs.module_api

/-- The router's state: its single instance attribute,
`self.custom_presence_router`, holding the policy instance or `None`. -/
structure PresenceRouter where
  custom_presence_router : Option PolicyModule

namespace PresenceRouter

/-- The `ALL` sentinel (`PresenceRouter.ALL` in the source), meaning that a
user should receive presence updates for all other users. -/
def ALL : InterestResult :=
  InterestResult.all

/-- Embedding of `PresenceRouter.__init__`: set `custom_presence_router` to
`None`, then, if a custom presence router module is configured, instantiate the
module class with the module config and the module API handle. -/
def init (hs : HomeServer) : PresenceRouter :=
  if hs.config.presence_router_module then
    { custom_presence_router :=
        some (hs.config.presence_router_module_class
          hs.config.presence_router_config hs.get_module_api) }
  else
    { custom_presence_router := none }

/-- Embedding of `PresenceRouter.get_rooms_and_users_for_states` (the spec's
`routeUpdates`): if a custom module is configured, return the result of its
`get_rooms_and_users_for_states` method (an `AttributeError` if that attribute
is absent); otherwise return `({}, {})`. -/
def get_rooms_and_users_for_states (self : PresenceRouter)
    (state_updates : List UserPresenceState) : Except PyErr RoomsAndUsers :=
  match self.custom_presence_router with
  | some policy =>
    match policy.get_rooms_and_users_for_states with
    | some f => f state_updates
    | none => Except.error (PyErr.attributeError "get_rooms_and_users_for_states")
  | none => Except.ok (([], []) : RoomsAndUsers)

/-- Embedding of `PresenceRouter.get_interested_users` (the spec's
`getInterestedUsers`).  If a custom module is configured: when it has a
`get_interested_users` attribute, invoke its `get_interested_in` method (an
`AttributeError` if that attribute is absent — the source checks one name and
calls another); else when it has a `get_users_for_states` attribute, return
`ALL`; otherwise, and when no module is configured, return the empty
collection (the source's literal `{}`). -/
def get_interested_users (self : PresenceRouter) (user_id : String) :
    Except PyErr InterestResult :=
  match self.custom_presence_router with
  | some policy =>
    if policy.get_interested_users.isSome then
      match policy.get_interested_in with
      | some f => f user_id
      | none => Except.error (PyErr.attributeError "get_interested_in")
    else if policy.get_users_for_states.isSome then
      Except.ok PresenceRouter.ALL
    else
      Except.ok (InterestResult.users ∅)
  | none => Except.ok (InterestResult.users ∅)

/-- State-passing form of `get_rooms_and_users_for_states`, making mutation of
the router explicit: the method body contains no assignment to `self`, so the
resulting router state is the input state unchanged. -/
def get_rooms_and_users_for_states_run (self : PresenceRouter)
    (state_updates : List UserPresenceState) :
    Except PyErr RoomsAndUsers × PresenceRouter :=
  (self.get_rooms_and_users_for_states state_updates, self)

/-- State-passing form of `get_interested_users`, making mutation of the
router explicit: the method body contains no assignment to `self`, so the
resulting router state is the input state unchanged. -/
def get_interested_users_run (self : PresenceRouter) (user_id : String) :
    Except PyErr InterestResult × PresenceRouter :=
  (self.get_interested_users user_id, self)

end PresenceRouter

namespace PresenceRouter

/-- C1: For every requesting user, if a policy is configured that implements
only the destination-filtering capability (the `get_users_for_states` attribute
the router's capability check introspects) and not the interest capability (the
`get_interested_users` attribute), `get_interested_users` returns the `ALL`
sentinel. -/
theorem interested_users_destination_only_returns_ALL
    (r : PresenceRouter) (p : PolicyModule) (user_id : String)
    (hp : r.custom_presence_router = some p)
    (hno : p.get_interested_users = none)
    (hdf : p.get_users_for_states.isSome = true) :
    r.get_interested_users user_id = Except.ok PresenceRouter.ALL := by
  simp [get_interested_users, hp, hno, hdf]

/-- Sample policy for C1: only the destination-filtering attribute present. -/
def destOnlyPolicy : PolicyModule where
  get_interested_users := none
  get_interested_in := none
  get_users_for_states := some fun _ => Except.ok []
  get_rooms_and_users_for_states := none

/-- C1 witness at a concrete router and user. -/
theorem interested_users_destination_only_returns_ALL_witness :
    (PresenceRouter.mk (some destOnlyPolicy)).get_interested_users "@alice:example.org"
      = Except.ok PresenceRouter.ALL :=
  interested_users_destination_only_returns_ALL
    (PresenceRouter.mk (some destOnlyPolicy)) destOnlyPolicy "@alice:example.org" rfl rfl rfl

/-- C2: For every requesting user, if the configured policy exposes the
interest capability (the `get_interested_users` attribute, which the router's
capability check introspects) and the `get_interested_in` method the router
then invokes, `get_interested_users` returns exactly that method's result,
unmodified — whether it is a finite set of user IDs, the `ALL` sentinel, or an
error. -/
theorem interested_users_delegates_unmodified
    (r : PresenceRouter) (p : PolicyModule) (user_id : String)
    (f : String → Except PyErr InterestResult)
    (hp : r.custom_presence_router = some p)
    (hcap : p.get_interested_users.isSome = true)
    (hin : p.get_interested_in = some f) :
    r.get_interested_users user_id = f user_id := by
  simp [get_interested_users, hp, hcap, hin]

/-- Sample policy for C2: interest capability present, with the invoked
`get_interested_in` method returning the set `{"u1", "u2"}`. -/
def interestPolicy : PolicyModule where
  get_interested_users := some fun _ => Except.ok (InterestResult.users {"u1", "u2"})
  get_interested_in := some fun _ => Except.ok (InterestResult.users {"u1", "u2"})
  get_users_for_states := none
  get_rooms_and_users_for_states := none

/-- C2 witness: the policy's returned set comes back unmodified. -/
theorem interested_users_delegates_unmodified_witness :
    (PresenceRouter.mk (some interestPolicy)).get_interested_users "@alice:example.org"
      = Except.ok (InterestResult.users {"u1", "u2"}) :=
  interested_users_delegates_unmodified
    (PresenceRouter.mk (some interestPolicy)) interestPolicy "@alice:example.org"
    (fun _ => Except.ok (InterestResult.users {"u1", "u2"})) rfl rfl rfl

/-- C3: For every local user ID, when no policy is configured, or the
configured policy implements neither the interest capability
(`get_interested_users`) nor the destination-filtering capability
(`get_users_for_states`), `get_interested_users` returns the empty set of user
IDs. -/
theorem interested_users_default_empty
    (r : PresenceRouter) (user_id : String)
    (h : r.custom_presence_router = none ∨
      ∃ p, r.custom_presence_router = some p ∧
        p.get_interested_users = none ∧ p.get_users_for_states = none) :
    r.get_interested_users user_id = Except.ok (InterestResult.users ∅) := by
  rcases h with h | ⟨p, hp, hni, hnu⟩
  · simp [get_interested_users, h]
  · simp [get_interested_users, hp, hni, hnu]

/-- C3 witness at a concrete router with no policy configured. -/
theorem interested_users_default_empty_witness :
    (PresenceRouter.mk none).get_interested_users "@alice:example.org"
      = Except.ok (InterestResult.users ∅) :=
  interested_users_default_empty (PresenceRouter.mk none) "@alice:example.org" (Or.inl rfl)

/-- C4: For every finite batch of presence state updates, when no policy is
configured, `get_rooms_and_users_for_states` returns the two empty mappings
`({}, {})`, regardless of batch size or content. -/
theorem route_updates_no_policy_empty
    (r : PresenceRouter) (state_updates : List UserPresenceState)
    (h : r.custom_presence_router = none) :
    r.get_rooms_and_users_for_states state_updates = Except.ok (([], []) : RoomsAndUsers) := by
  simp [get_rooms_and_users_for_states, h]

/-- C4 witness: a batch of three updates against a policy-free router. -/
theorem route_updates_no_policy_empty_witness :
    (PresenceRouter.mk none).get_rooms_and_users_for_states
        [⟨"@u1:x", "online"⟩, ⟨"@u2:x", "offline"⟩, ⟨"@u3:x", "unavailable"⟩]
      = Except.ok (([], []) : RoomsAndUsers) :=
  route_updates_no_policy_empty (PresenceRouter.mk none)
    [⟨"@u1:x", "online"⟩, ⟨"@u2:x", "offline"⟩, ⟨"@u3:x", "unavailable"⟩] rfl

/-- C5: For every batch of presence state updates, when a policy implementing
`get_rooms_and_users_for_states` is configured, the router's
`get_rooms_and_users_for_states` returns exactly the policy's result,
unmodified and unvalidated — in particular also when that result holds empty
mappings or updates absent from the input batch. -/
theorem route_updates_delegates_verbatim
    (r : PresenceRouter) (p : PolicyModule) (state_updates : List UserPresenceState)
    (f : List UserPresenceState → Except PyErr RoomsAndUsers)
    (hp : r.custom_presence_router = some p)
    (hf : p.get_rooms_and_users_for_states = some f) :
    r.get_rooms_and_users_for_states state_updates = f state_updates := by
  simp [get_rooms_and_users_for_states, hp, hf]

/-- Sample policy for C5: its routing result names an update that is not part
of any input batch. -/
def foreignUpdatePolicy : PolicyModule where
  get_interested_users := none
  get_interested_in := none
  get_users_for_states := none
  get_rooms_and_users_for_states :=
    some fun _ => Except.ok (([("!room:x", [⟨"@ghost:x", "online"⟩])], []) : RoomsAndUsers)

/-- C5 witness: the policy's mapping, holding an update not present in the
(empty) input batch, is returned verbatim. -/
theorem route_updates_delegates_verbatim_witness :
    (PresenceRouter.mk (some foreignUpdatePolicy)).get_rooms_and_users_for_states []
      = Except.ok (([("!room:x", [⟨"@ghost:x", "online"⟩])], []) : RoomsAndUsers) :=
  route_updates_delegates_verbatim
    (PresenceRouter.mk (some foreignUpdatePolicy)) foreignUpdatePolicy []
    (fun _ => Except.ok (([("!room:x", [⟨"@ghost:x", "online"⟩])], []) : RoomsAndUsers)) rfl rfl

end PresenceRouter

namespace PresenceRouter

/-- Policy exposing the interest capability attribute but not the
`get_interested_in` method the router's delegation actually invokes; none of
its present methods ever returns an error. -/
def interestNameMismatchPolicy : PolicyModule where
  get_interested_users := some fun _ => Except.ok InterestResult.all
  get_interested_in := none
  get_users_for_states := none
  get_rooms_and_users_for_states := none

/-- C6 counterexample: against `interestNameMismatchPolicy` — whose only
present method is total and never errors, and whose `get_interested_in` slot is
absent, so no delegated call can be the origin of a failure —
`get_interested_users` nevertheless returns an `AttributeError` raised by the
router's own delegation logic, refuting the claim that neither operation
raises an error from the router's own logic. -/
theorem router_raises_own_attribute_error :
    (PresenceRouter.mk (some interestNameMismatchPolicy)).get_interested_users
        "@alice:example.org"
      = Except.error (PyErr.attributeError "get_interested_in")
    ∧ interestNameMismatchPolicy.get_interested_in = none :=
  ⟨rfl, rfl⟩

/-- C6 amended: any error returned by a delegated policy call propagates
unchanged to the router's caller, neither caught, translated nor retried; the
only errors the router raises from its own logic are attribute-lookup errors,
arising exactly when the method to be invoked is absent — for
`get_rooms_and_users_for_states`, when the policy lacks that method; for
`get_interested_users`, when the policy exposes `get_interested_users` but not
`get_interested_in`.  In every other case the router raises no error of its
own. -/
theorem router_error_passthrough
    (r : PresenceRouter) (p : PolicyModule)
    (state_updates : List UserPresenceState) (user_id : String)
    (f : List UserPresenceState → Except PyErr RoomsAndUsers)
    (g : String → Except PyErr InterestResult) (e : PyErr)
    (hp : r.custom_presence_router = some p) :
    (p.get_rooms_and_users_for_states = some f → f state_updates = Except.error e →
      r.get_rooms_and_users_for_states state_updates = Except.error e)
    ∧ (p.get_rooms_and_users_for_states = none →
      r.get_rooms_and_users_for_states state_updates
        = Except.error (PyErr.attributeError "get_rooms_and_users_for_states"))
    ∧ (p.get_interested_users.isSome = true → p.get_interested_in = some g →
        g user_id = Except.error e →
      r.get_interested_users user_id = Except.error e)
    ∧ (p.get_interested_users.isSome = true → p.get_interested_in = none →
      r.get_interested_users user_id = Except.error (PyErr.attributeError "get_interested_in"))
    ∧ (p.get_interested_users = none →
      ∀ e2 : PyErr, r.get_interested_users user_id ≠ Except.error e2) := by
  refine ⟨?_, ?_, ?_, ?_, ?_⟩
  · intro hf herr
    simp [get_rooms_and_users_for_states, hp, hf, herr]
  · intro hf
    simp [get_rooms_and_users_for_states, hp, hf]
  · intro hcap hg herr
    simp [get_interested_users, hp, hcap, hg, herr]
  · intro hcap hg
    simp [get_interested_users, hp, hcap, hg]
  · intro hni e2
    by_cases hu : p.get_users_for_states.isSome = true
    · simp [get_interested_users, hp, hni, hu]
    · simp [get_interested_users, hp, hni, hu]

/-- Policy whose routing method always raises a `boom` error. -/
def raisingRoutePolicy : PolicyModule where
  get_interested_users := none
  get_interested_in := none
  get_users_for_states := none
  get_rooms_and_users_for_states := some fun _ => Except.error (PyErr.other "boom")

/-- C6 witness: the `boom` error raised inside the policy's routing call comes
out of the router's `get_rooms_and_users_for_states` unchanged. -/
theorem router_error_passthrough_witness :
    (PresenceRouter.mk (some raisingRoutePolicy)).get_rooms_and_users_for_states []
      = Except.error (PyErr.other "boom") :=
  (router_error_passthrough
    (PresenceRouter.mk (some raisingRoutePolicy)) raisingRoutePolicy []
    "@alice:example.org"
    (fun _ => Except.error (PyErr.other "boom"))
    (fun _ => Except.ok InterestResult.all)
    (PyErr.other "boom") rfl).1 rfl rfl

/-- C7: calling either operation twice with identical inputs yields identical
results and leaves the router state identical: in the state-passing embedding,
re-running an operation from the state it produced reproduces the same
result-state pair.  Policy methods are pure functions here, so the
idempotent-policy hypothesis of the claim holds by construction. -/
theorem router_operations_idempotent
    (r : PresenceRouter) (user_id : String) (state_updates : List UserPresenceState) :
    ((r.get_interested_users_run user_id).2.get_interested_users_run user_id
      = r.get_interested_users_run user_id)
    ∧ ((r.get_rooms_and_users_for_states_run state_updates).2.get_rooms_and_users_for_states_run
          state_updates
      = r.get_rooms_and_users_for_states_run state_updates) :=
  ⟨rfl, rfl⟩

/-- C8: the policy reference is assigned exactly once at construction — to an
instance of the configured module class if one is configured, otherwise to
`None` — and neither operation ever reassigns it: in the state-passing
embedding, the router state after either call is the state before it. -/
theorem policy_reference_set_once
    (hs : HomeServer) (r : PresenceRouter) (user_id : String)
    (state_updates : List UserPresenceState) :
    ((PresenceRouter.init hs).custom_presence_router
      = if hs.config.presence_router_module then
          some (hs.config.presence_router_module_class
            hs.config.presence_router_config hs.get_module_api)
        else none)
    ∧ (r.get_interested_users_run user_id).2 = r
    ∧ (r.get_rooms_and_users_for_states_run state_updates).2 = r := by
  refine ⟨?_, rfl, rfl⟩
  by_cases hb : hs.config.presence_router_module = true
  · simp [init, hb]
  · simp [init, hb]

/-- C9: for every configured policy exposing a `get_interested_users` attribute
but no `get_interested_in` attribute, `get_interested_users` returns an
attribute-lookup error instead of an interest result, because the capability
check introspects one method name while the delegation invokes another. -/
theorem interest_capability_name_mismatch_raises
    (r : PresenceRouter) (p : PolicyModule) (user_id : String)
    (hp : r.custom_presence_router = some p)
    (hcap : p.get_interested_users.isSome = true)
    (hmiss : p.get_interested_in = none) :
    r.get_interested_users user_id = Except.error (PyErr.attributeError "get_interested_in") := by
  simp [get_interested_users, hp, hcap, hmiss]

/-- Policy for the C9 witness: `get_interested_users` present,
`get_interested_in` absent. -/
def checkOnlyInterestPolicy : PolicyModule where
  get_interested_users := some fun _ => Except.ok (InterestResult.users {"u1"})
  get_interested_in := none
  get_users_for_states := none
  get_rooms_and_users_for_states := none

/-- C9 witness at a concrete router and user. -/
theorem interest_capability_name_mismatch_raises_witness :
    (PresenceRouter.mk (some checkOnlyInterestPolicy)).get_interested_users "@alice:example.org"
      = Except.error (PyErr.attributeError "get_interested_in") :=
  interest_capability_name_mismatch_raises
    (PresenceRouter.mk (some checkOnlyInterestPolicy)) checkOnlyInterestPolicy
    "@alice:example.org" rfl rfl rfl

/-- C10: for every configured policy implementing
`get_rooms_and_users_for_states` — exactly the method the router's
`get_rooms_and_users_for_states` delegates to, as the first conjunct shows —
but exposing neither a `get_interested_users` nor a `get_users_for_states`
attribute, `get_interested_users` returns the empty default and not the `ALL`
sentinel: the destination-filtering capability check introspects a method name
different from the one the routing delegation calls. -/
theorem routing_method_not_detected_as_capability
    (r : PresenceRouter) (p : PolicyModule) (user_id : String)
    (state_updates : List UserPresenceState)
    (f : List UserPresenceState → Except PyErr RoomsAndUsers)
    (hp : r.custom_presence_router = some p)
    (hroute : p.get_rooms_and_users_for_states = some f)
    (hni : p.get_interested_users = none)
    (hnu : p.get_users_for_states = none) :
    r.get_rooms_and_users_for_states state_updates = f state_updates
    ∧ r.get_interested_users user_id = Except.ok (InterestResult.users ∅)
    ∧ r.get_interested_users user_id ≠ Except.ok PresenceRouter.ALL := by
  have h2 : r.get_interested_users user_id = Except.ok (InterestResult.users ∅) := by
    simp [get_interested_users, hp, hni, hnu]
  refine ⟨?_, h2, ?_⟩
  · simp [get_rooms_and_users_for_states, hp, hroute]
  · rw [h2]
    simp [ALL]

/-- Policy for the C10 witness: only the routing method the router actually
delegates to is implemented. -/
def routingOnlyPolicy : PolicyModule where
  get_interested_users := none
  get_interested_in := none
  get_users_for_states := none
  get_rooms_and_users_for_states :=
    some fun state_updates => Except.ok (([("!room:x", state_updates)], []) : RoomsAndUsers)

/-- C10 witness: routing delegates to the policy, yet interest falls through to
the empty default rather than `ALL`. -/
theorem routing_method_not_detected_as_capability_witness :
    (PresenceRouter.mk (some routingOnlyPolicy)).get_rooms_and_users_for_states
        [⟨"@u1:x", "online"⟩]
      = Except.ok (([("!room:x", [⟨"@u1:x", "online"⟩])], []) : RoomsAndUsers)
    ∧ (PresenceRouter.mk (some routingOnlyPolicy)).get_interested_users "@alice:example.org"
      = Except.ok (InterestResult.users ∅) := by
  have h := routing_method_not_detected_as_capability
    (PresenceRouter.mk (some routingOnlyPolicy)) routingOnlyPolicy
    "@alice:example.org" [⟨"@u1:x", "online"⟩]
    (fun state_updates => Except.ok (([("!room:x", state_updates)], []) : RoomsAndUsers))
    rfl rfl rfl rfl
  exact ⟨h.1, h.2.1⟩

end PresenceRouter
